import Mathlib

/-!
Verification development for the SoundTab client-side upload-and-convert
workflow (src/frontend/app/page.tsx).  The React component's state hooks,
event handlers and the asynchronous conversion routine are shallowly embedded
as pure Lean functions over an explicit state record; the progress simulator's
periodic callback is embedded as a fold over the sequence of random draws, and
the success path's effect ordering as an explicit action trace.
-/

namespace SoundTab

/-- A candidate file as seen by the handlers: `File` objects expose a `name`,
a declared MIME `type` and a byte `size`. -/
structure AudioFile where
  name : String
  type : String
  size : Nat
deriving DecidableEq, Repr

/-- Checks that `s` begins with the characters of `pre` (JS-style comparison
on the character sequence). -/
def leadsWith : List Char → List Char → Bool
  | [], _ => true
  | _ :: _, [] => false
  | a :: as, b :: bs => a == b && leadsWith as bs

/-- Checks that the character list `sub` occurs contiguously inside `l`. -/
def occursIn (sub : List Char) : List Char → Bool
  | [] => leadsWith sub []
  | b :: bs => leadsWith sub (b :: bs) || occursIn sub bs

/-- JS `String.prototype.includes`: does `s` contain `sub`? -/
def strContains (s sub : String) : Bool := occursIn sub.data s.data

/-- JS `String.prototype.endsWith`: does `s` end with `suf`? -/
def strEndsWith (s suf : String) : Bool := leadsWith suf.data.reverse s.data.reverse

/-- The component's mutable state: the five `useState` hooks of `Home`,
plus bookkeeping for the object-URL resource lifecycle (`createdUrls` records
every `URL.createObjectURL` call, `revokedUrls` every `URL.revokeObjectURL`
call) and whether the progress `setInterval` timer is active. -/
structure AppState where
  selectedFile : Option AudioFile
  isProcessing : Bool
  processingProgress : ℚ
  processingComplete : Bool
  pdfUrl : Option Nat
  createdUrls : List Nat
  revokedUrls : List Nat
  timerActive : Bool
deriving DecidableEq, Repr

/-- The initial hook values: no file, not processing, progress 0, not
complete, no pdf url. -/
def initialState : AppState :=
  { selectedFile := none
    isProcessing := false
    processingProgress := 0
    processingComplete := false
    pdfUrl := none
    createdUrls := []
    revokedUrls := []
    timerActive := false }

/-- `handleFileChange`: takes `event.target.files?.[0]`; when a file is
present it sets the selected file, clears the completion flag and nulls the
pdf url.  No validation is performed in this handler, and no revoke call is
made. -/
def handleFileChange (st : AppState) (files : List AudioFile) : AppState :=
  match files.head? with
  | some file =>
      { st with selectedFile := some file, processingComplete := false, pdfUrl := none }
  | none => st

/-- The acceptance test of `handleDrop`: MIME type is one of
`audio/mpeg`, `audio/wav`, `audio/ogg`, or the file name ends with `.mp3` or
`.wav`. -/
def dropAccepts (f : AudioFile) : Bool :=
  f.type == "audio/mpeg" || f.type == "audio/wav" || f.type == "audio/ogg" ||
    strEndsWith f.name ".mp3" || strEndsWith f.name ".wav"

/-- `handleDrop`: takes `e.dataTransfer.files?.[0]`; when a file is present
and passes `dropAccepts`, it sets the selected file and clears the completion
flag (it does not touch `pdfUrl`); otherwise the state is unchanged. -/
def handleDrop (st : AppState) (files : List AudioFile) : AppState :=
  match files.head? with
  | some file =>
      if dropAccepts file then
        { st with selectedFile := some file, processingComplete := false }
      else st
  | none => st

/-- The New Conversion button's onClick: nulls the selected file, the
completion flag and the pdf url.  It does not reset the progress value and
performs no revoke call. -/
def newConversionClick (st : AppState) : AppState :=
  { st with selectedFile := none, processingComplete := false, pdfUrl := none }

/-- Observable effect of `handleDownload`: either a programmatic save of the
held url under a fixed file name, or an alert. -/
inductive DownloadEffect where
  | save (fileName : String) (url : Nat)
  | alertMsg (msg : String)
deriving DecidableEq, Repr

/-- `handleDownload`: when a pdf url is held, builds an anchor with
`download = 'sheet_music.pdf'` and clicks it; otherwise alerts
"Download not ready".  The component state is untouched on both paths. -/
def handleDownload (st : AppState) : AppState × DownloadEffect :=
  match st.pdfUrl with
  | some u => (st, .save "sheet_music.pdf" u)
  | none => (st, .alertMsg "Download not ready")

/-- Outcome of the `fetch` call: an HTTP response with a status and a body,
or a transport-level rejection. -/
inductive FetchResult where
  | response (status : Nat) (body : String)
  | transportFailure (desc : String)
deriving DecidableEq, Repr

/-- `Response.ok`: status in the 2xx range. -/
def responseOk (status : Nat) : Bool :=
  decide (200 ≤ status) && decide (status ≤ 299)

/-- The minimum perceived-duration floor of `handleStartProcess`:
`const minTime = 20000` (20 seconds). -/
def minTime : Nat := 20000

/-- One tick of the progress `setInterval` callback:
`prev >= 90 ? prev : prev + Math.random() * 1.5`, where `x` is the value
drawn by `Math.random()` (so `0 ≤ x < 1`). -/
def simTick (prev x : ℚ) : ℚ :=
  if 90 ≤ prev then prev else prev + x * (3 / 2)

/-- The progress value produced by running the simulator alone from 0 over
the sequence `xs` of random draws. -/
def runSim (xs : List ℚ) : ℚ := xs.foldl simTick 0

/-- The complete observable outcome of one `handleStartProcess` invocation:
the final component state, whether a request was sent and a timer
started/cleared, the `alert` and `console.error` messages if any, and the
elapsed milliseconds (from the recorded `startTime`) at which the
completion flag, respectively the failure alert, happened. -/
structure StartResult where
  finalState : AppState
  requestSent : Bool
  timerStarted : Bool
  timerCleared : Bool
  userAlert : Option String
  consoleError : Option String
  completeElapsedMs : Option Nat
  failedElapsedMs : Option Nat
deriving DecidableEq, Repr

/-- `handleStartProcess`, embedded as a function of the current state, the
settled fetch outcome, the elapsed milliseconds at which the fetch settled,
and the fresh object-url identifier minted by `URL.createObjectURL`.
It returns early when no file is selected.  Otherwise it sets
`isProcessing`, resets progress to 0, starts the interval, and awaits the
request. On a 2xx response it pads the elapsed time up to `minTime`, creates
the object url, clears the interval, writes progress 100 and — 500 ms later —
flips `isProcessing` off and `processingComplete` on.  On a non-2xx response
or transport failure it logs the error, alerts a fixed message, clears the
interval, flips `isProcessing` off and resets progress to 0, with no floor
padding.  Intermediate simulator ticks are modelled separately by `simTick`;
both exits overwrite the progress value, so the final state does not depend
on them. -/
def handleStartProcess (st : AppState) (result : FetchResult)
    (requestElapsedMs : Nat) (freshUrl : Nat) : StartResult :=
  match st.selectedFile with
  | none =>
      { finalState := st
        requestSent := false
        timerStarted := false
        timerCleared := false
        userAlert := none
        consoleError := none
        completeElapsedMs := none
        failedElapsedMs := none }
  | some _ =>
      let started :=
        { st with isProcessing := true, processingProgress := 0, timerActive := true }
      match result with
      | .response status body =>
          if responseOk status then
            let finalizeAt := max requestElapsedMs minTime
            let finished :=
              { started with
                  pdfUrl := some freshUrl
                  createdUrls := freshUrl :: started.createdUrls
                  timerActive := false
                  processingProgress := 100
                  isProcessing := false
                  processingComplete := true }
            { finalState := finished
              requestSent := true
              timerStarted := true
              timerCleared := true
              userAlert := none
              consoleError := none
              completeElapsedMs := some (finalizeAt + 500)
              failedElapsedMs := none }
          else
            let failed :=
              { started with
                  timerActive := false
                  isProcessing := false
                  processingProgress := 0 }
            { finalState := failed
              requestSent := true
              timerStarted := true
              timerCleared := true
              userAlert := some "Error processing file. Please check backend connection."
              consoleError := some ("Processing failed: " ++ body)
              completeElapsedMs := none
              failedElapsedMs := some requestElapsedMs }
      | .transportFailure desc =>
          let failed :=
            { started with
                timerActive := false
                isProcessing := false
                processingProgress := 0 }
          { finalState := failed
            requestSent := true
            timerStarted := true
            timerCleared := true
            userAlert := some "Error processing file. Please check backend connection."
            consoleError := some desc
            completeElapsedMs := none
            failedElapsedMs := some requestElapsedMs }

/-- The five abstract workflow states of the specification. -/
inductive WState where
  | Idle
  | FileSelected
  | Processing
  | Complete
  | Failed
deriving DecidableEq, Repr

/-- The abstract workflow state rendered by the component: `Idle` with no
file; with a file, `Processing` while `isProcessing`, `Complete` while
`processingComplete`, otherwise `FileSelected`. -/
def workflowState (st : AppState) : WState :=
  match st.selectedFile with
  | none => .Idle
  | some _ =>
      if st.isProcessing then .Processing
      else if st.processingComplete then .Complete
      else .FileSelected

/-- A sample valid input file. -/
def songFile : AudioFile := { name := "song.mp3", type := "audio/mpeg", size := 1024 }

/-- The state after selecting `songFile` from the initial state. -/
def fileSelectedState : AppState := handleFileChange initialState [songFile]

/-- The state after a successful conversion of `songFile` (2xx response after
2 s, fresh object url 0). -/
def completeSampleState : AppState :=
  (handleStartProcess fileSelectedState (.response 200 "pdfbytes") 2000 0).finalState

/-- A single observable effect on the component state, used to embed the
order in which the success path of `handleStartProcess` performs its writes,
with the simulator's interval callback as `simTickAct` (delivered only while
the interval is uncleared). -/
inductive Action where
  | setIsProcessing (b : Bool)
  | setProgress (p : ℚ)
  | simTickAct (x : ℚ)
  | startTimer
  | stopTimer
  | setPdfUrl (u : Nat)
  | setComplete (b : Bool)
deriving DecidableEq, Repr

/-- Interpretation of one `Action` on the component state.  A `simTickAct` is
a no-op once the interval has been cleared, embedding `clearInterval`. -/
def applyAction (st : AppState) : Action → AppState
  | .setIsProcessing b => { st with isProcessing := b }
  | .setProgress p => { st with processingProgress := p }
  | .simTickAct x =>
      if st.timerActive then
        { st with processingProgress := simTick st.processingProgress x }
      else st
  | .startTimer => { st with timerActive := true }
  | .stopTimer => { st with timerActive := false }
  | .setPdfUrl u => { st with pdfUrl := some u, createdUrls := u :: st.createdUrls }
  | .setComplete b => { st with processingComplete := b }

/-- Runs a list of actions left to right. -/
def runActions (st : AppState) (as : List Action) : AppState :=
  as.foldl applyAction st

/-- The tail of the success path in source order: create and store the object
url, clear the interval, write progress 100, then flip the flags in the
500 ms timeout. -/
def successTail (u : Nat) : List Action :=
  [Action.setPdfUrl u, Action.stopTimer, Action.setProgress 100,
   Action.setIsProcessing false, Action.setComplete true]

/-- The full success-path trace: the synchronous prologue of
`handleStartProcess`, then the simulator ticks delivered while the request
and the floor delay are pending (all of them before `stopTimer`, since
`clearInterval` precedes the final write in the source), then `successTail`. -/
def successActionTrace (xs : List ℚ) (u : Nat) : List Action :=
  [Action.setIsProcessing true, Action.setProgress 0, Action.startTimer]
    ++ xs.map Action.simTickAct ++ successTail u

lemma runActions_successTail (s : AppState) (u : Nat) :
    runActions s (successTail u) =
      { s with
          pdfUrl := some u
          createdUrls := u :: s.createdUrls
          timerActive := false
          processingProgress := 100
          isProcessing := false
          processingComplete := true } := rfl

lemma simTick_mono (p x : ℚ) (hx : 0 ≤ x) : p ≤ simTick p x := by
  unfold simTick
  split
  · exact le_refl p
  · nlinarith

lemma simTick_lt_bound (p x : ℚ) (hp : p < 183 / 2) (_hx0 : 0 ≤ x) (hx1 : x < 1) :
    simTick p x < 183 / 2 := by
  by_cases h : (90 : ℚ) ≤ p
  · simpa [simTick, h] using hp
  · push_neg at h
    simp only [simTick, if_neg (not_le.mpr h)]
    nlinarith

lemma foldl_simTick_bound (xs : List ℚ) : ∀ p : ℚ, p < 183 / 2 →
    (∀ x ∈ xs, 0 ≤ x ∧ x < 1) → xs.foldl simTick p < 183 / 2 := by
  induction xs with
  | nil =>
      intro p hp _
      simpa using hp
  | cons a as ih =>
      intro p hp h
      simp only [List.foldl_cons]
      exact ih (simTick p a)
        (simTick_lt_bound p a hp (h a (by simp)).1 (h a (by simp)).2)
        (fun x hx => h x (by simp [hx]))

lemma leadsWith_self (l : List Char) : leadsWith l l = true := by
  induction l with
  | nil => rfl
  | cons a as ih => simp [leadsWith, ih]

lemma occursIn_append_self (sub p : List Char) : occursIn sub (p ++ sub) = true := by
  induction p with
  | nil =>
      cases sub with
      | nil => rfl
      | cons b bs => simp [occursIn, leadsWith_self]
  | cons c cs ih => simp [occursIn, ih]

lemma strContains_append (pre body : String) :
    strContains (pre ++ body) body = true := by
  unfold strContains
  rw [String.data_append]
  exact occursIn_append_self body.data pre.data

/-- C1: for every successful conversion the completion flag is set at an
elapsed time of at least the configured `minTime` floor (20000 ms); when the
request settles at or before the floor, completion happens exactly at the
floor (plus the fixed 500 ms handoff), so an early response is delayed until
the floor elapses. -/
theorem success_respects_min_duration (st : AppState) (f : AudioFile)
    (status : Nat) (body : String) (t u e : Nat)
    (hf : st.selectedFile = some f) (hok : responseOk status = true)
    (he : (handleStartProcess st (.response status body) t u).completeElapsedMs = some e) :
    minTime ≤ e ∧ (t ≤ minTime → e = minTime + 500) := by
  simp only [handleStartProcess, hf, hok, if_true] at he
  simp only [Option.some.injEq] at he
  subst he
  refine ⟨?_, ?_⟩
  · calc minTime ≤ max t minTime := Nat.le_max_right _ _
      _ ≤ max t minTime + 500 := Nat.le_add_right _ _
  · intro ht
    have : max t minTime = minTime := Nat.max_eq_right ht
    omega

/-- Witness for C1: a request that settles after 2 s completes at 20500 ms,
which is at least the 20000 ms floor and equals floor plus handoff. -/
theorem success_respects_min_duration_witness :
    minTime ≤ 20500 ∧ (2000 ≤ minTime → 20500 = minTime + 500) :=
  success_respects_min_duration fileSelectedState songFile 200 "pdfbytes"
    2000 0 20500 rfl rfl rfl

/-- C10: invoking the start action with no selected file returns immediately:
the state is unchanged, no request is sent, no timer is started, and no
message is produced. -/
theorem start_without_file_is_noop (st : AppState) (r : FetchResult) (t u : Nat)
    (h : st.selectedFile = none) :
    handleStartProcess st r t u =
      { finalState := st
        requestSent := false
        timerStarted := false
        timerCleared := false
        userAlert := none
        consoleError := none
        completeElapsedMs := none
        failedElapsedMs := none } := by
  simp only [handleStartProcess, h]

/-- Witness for C10: starting from the initial state (no file selected) is a
no-op. -/
theorem start_without_file_is_noop_witness :
    handleStartProcess initialState (.response 200 "x") 0 0 =
      { finalState := initialState
        requestSent := false
        timerStarted := false
        timerCleared := false
        userAlert := none
        consoleError := none
        completeElapsedMs := none
        failedElapsedMs := none } :=
  start_without_file_is_noop initialState (.response 200 "x") 0 0 rfl

/-- C7: the download action leaves the component state unchanged on both
paths; with a held result it saves it under the fixed name
sheet_music.pdf, and with no held result it reports "Download not ready". -/
theorem download_behavior (st : AppState) (u : Nat) :
    (handleDownload st).1 = st ∧
    (st.pdfUrl = some u → (handleDownload st).2 = .save "sheet_music.pdf" u) ∧
    (st.pdfUrl = none → (handleDownload st).2 = .alertMsg "Download not ready") := by
  refine ⟨?_, ?_, ?_⟩
  · unfold handleDownload
    cases st.pdfUrl <;> rfl
  · intro h
    simp only [handleDownload, h]
  · intro h
    simp only [handleDownload, h]

/-- Witness for C7: downloading from the completed sample state saves url 0
as sheet_music.pdf. -/
theorem download_behavior_witness :
    (handleDownload completeSampleState).2 = DownloadEffect.save "sheet_music.pdf" 0 :=
  (download_behavior completeSampleState 0).2.1 rfl

/-- C4: on request failure — non-2xx response or transport failure — the
workflow leaves processing immediately: the failure is reported at exactly
the request's own settle time (no floor padding, `failedElapsedMs` is the raw
elapsed time and no completion timestamp exists), the interval timer is
cleared, and the progress value is reset to 0. -/
theorem failure_immediate_and_unwound (st : AppState) (f : AudioFile)
    (status t u : Nat) (body desc : String)
    (hf : st.selectedFile = some f) (hbad : responseOk status = false) :
    ((handleStartProcess st (.response status body) t u).finalState.timerActive = false ∧
     (handleStartProcess st (.response status body) t u).timerCleared = true ∧
     (handleStartProcess st (.response status body) t u).finalState.processingProgress = 0 ∧
     (handleStartProcess st (.response status body) t u).finalState.isProcessing = false ∧
     (handleStartProcess st (.response status body) t u).failedElapsedMs = some t ∧
     (handleStartProcess st (.response status body) t u).completeElapsedMs = none) ∧
    ((handleStartProcess st (.transportFailure desc) t u).finalState.timerActive = false ∧
     (handleStartProcess st (.transportFailure desc) t u).timerCleared = true ∧
     (handleStartProcess st (.transportFailure desc) t u).finalState.processingProgress = 0 ∧
     (handleStartProcess st (.transportFailure desc) t u).finalState.isProcessing = false ∧
     (handleStartProcess st (.transportFailure desc) t u).failedElapsedMs = some t ∧
     (handleStartProcess st (.transportFailure desc) t u).completeElapsedMs = none) := by
  constructor
  · simp [handleStartProcess, hf, hbad]
  · simp [handleStartProcess, hf]

/-- Witness for C4: an HTTP 500 after 2 s fails at 2000 ms with the timer
cleared and progress 0. -/
theorem failure_immediate_and_unwound_witness :
    AppState.processingProgress
        (StartResult.finalState
          (handleStartProcess fileSelectedState (.response 500 "decode error") 2000 0)) = 0 ∧
    StartResult.failedElapsedMs
        (handleStartProcess fileSelectedState (.response 500 "decode error") 2000 0) =
      some 2000 :=
  ⟨(failure_immediate_and_unwound fileSelectedState songFile 500 2000 0 "decode error" "x"
      rfl rfl).1.2.2.1,
   (failure_immediate_and_unwound fileSelectedState songFile 500 2000 0 "decode error" "x"
      rfl rfl).1.2.2.2.2.1⟩

/-- Counterexample to C2 as stated: a dropped file named song.ogg with an
empty MIME type matches the claim's recognized-extension set but is rejected
by `handleDrop` (state unchanged, nothing selected), and a picked file named
clip.txt with MIME text/plain is outside the claim's allow-set but is
accepted by `handleFileChange`. -/
theorem selection_validation_counterexample :
    (handleDrop initialState
        [{ name := "song.ogg", type := "", size := 1000 }]).selectedFile = none ∧
    (handleFileChange initialState
        [{ name := "clip.txt", type := "text/plain", size := 10 }]).selectedFile =
      some { name := "clip.txt", type := "text/plain", size := 10 } := by
  decide

/-- C2 as amended: the drop handler silently rejects (state fully unchanged)
unless the MIME type is audio/mpeg, audio/wav or audio/ogg or the name ends
in .mp3 or .wav (the .ogg and .mpeg filename fallbacks are absent), and
accepts a matching candidate; the picker handler performs no validation and
accepts any present candidate. -/
theorem selection_validation (st : AppState) (f : AudioFile) (rest : List AudioFile) :
    (dropAccepts f = false → handleDrop st (f :: rest) = st) ∧
    (dropAccepts f = true →
      (handleDrop st (f :: rest)).selectedFile = some f ∧
      (handleDrop st (f :: rest)).processingComplete = false) ∧
    (handleFileChange st (f :: rest)).selectedFile = some f := by
  refine ⟨?_, ?_, rfl⟩
  · intro h
    simp [handleDrop, h]
  · intro h
    constructor <;> simp [handleDrop, h]

/-- Witness for C2 (amended): dropping clip.txt on the initial state leaves
it unchanged. -/
theorem selection_validation_witness :
    handleDrop initialState [{ name := "clip.txt", type := "text/plain", size := 10 }] =
      initialState :=
  (selection_validation initialState
    { name := "clip.txt", type := "text/plain", size := 10 } []).1 rfl

/-- Counterexample to C3 as stated: after the New Conversion reset the
workflow is back in Idle, yet the progress value is still 100 (neither the
reset nor file selection ever writes the progress hook), refuting
"equals 100 only if the state is Complete". -/
theorem progress_100_iff_complete_counterexample :
    workflowState (newConversionClick completeSampleState) = WState.Idle ∧
    (newConversionClick completeSampleState).processingProgress = 100 := by
  decide

/-- C3 as amended: the progress value is monotonically non-decreasing under
simulator ticks during Processing, and on every successful conversion the
final state is Complete with progress exactly 100; but 100-iff-Complete
fails in the only-if direction, because the New Conversion reset leaves the
progress value untouched (and the completion flag is only set 500 ms after
the 100 write). -/
theorem progress_monotone_and_complete (st : AppState) (f : AudioFile)
    (status t u : Nat) (body : String) (p x : ℚ) :
    (0 ≤ x → p ≤ simTick p x) ∧
    (st.selectedFile = some f → responseOk status = true →
      (handleStartProcess st (.response status body) t u).finalState.processingProgress = 100 ∧
      (handleStartProcess st (.response status body) t u).finalState.processingComplete = true) ∧
    (newConversionClick st).processingProgress = st.processingProgress := by
  refine ⟨fun hx => simTick_mono p x hx, ?_, rfl⟩
  intro hf hok
  constructor <;> simp [handleStartProcess, hf, hok]

/-- Witness for C3 (amended): a tick from 50 does not decrease the value,
and the sample successful conversion ends at progress 100. -/
theorem progress_monotone_and_complete_witness :
    (50 : ℚ) ≤ simTick 50 (1 / 2) ∧
    AppState.processingProgress (StartResult.finalState
      (handleStartProcess fileSelectedState (.response 200 "pdfbytes") 2000 0)) = 100 :=
  ⟨(progress_monotone_and_complete fileSelectedState songFile 200 2000 0 "pdfbytes"
      50 (1 / 2)).1 (by norm_num),
   ((progress_monotone_and_complete fileSelectedState songFile 200 2000 0 "pdfbytes"
      50 (1 / 2)).2.1 rfl rfl).1⟩

/-- Counterexample to C5 as stated: after a successful conversion a result
url is held (url 0), yet selecting a new valid file — and likewise the New
Conversion reset — leaves the set of revoked references empty instead of
revoking the held reference exactly once: no revoke call exists in the
code. -/
theorem revoke_exactly_once_counterexample :
    completeSampleState.pdfUrl = some 0 ∧
    completeSampleState.revokedUrls = [] ∧
    (handleFileChange completeSampleState
        [{ name := "riff.wav", type := "audio/wav", size := 2048 }]).revokedUrls = [] ∧
    (newConversionClick completeSampleState).revokedUrls = [] := by
  decide

/-- C5 as amended: selecting a file via the picker and the New Conversion
reset clear the held url (set it to null) but never revoke it — the revoked
set is unchanged on every path, so the object url leaks — and drop-selection
does not even clear the held url. -/
theorem result_reference_never_revoked (st : AppState) (f : AudioFile)
    (rest : List AudioFile) :
    (handleFileChange st (f :: rest)).pdfUrl = none ∧
    (handleFileChange st (f :: rest)).revokedUrls = st.revokedUrls ∧
    (newConversionClick st).pdfUrl = none ∧
    (newConversionClick st).revokedUrls = st.revokedUrls ∧
    (handleDrop st (f :: rest)).pdfUrl = st.pdfUrl := by
  refine ⟨rfl, rfl, rfl, rfl, ?_⟩
  by_cases h : dropAccepts f = true
  · simp [handleDrop, h]
  · simp [handleDrop, h]

/-- Counterexample to C6 as stated: on an HTTP 500 with body "decode error"
the user-visible alert is the fixed text "Error processing file. Please
check backend connection.", which does not contain "decode error"; the body
text reaches only the console log. -/
theorem error_surface_counterexample :
    StartResult.userAlert
        (handleStartProcess fileSelectedState (.response 500 "decode error") 2000 0) =
      some "Error processing file. Please check backend connection." ∧
    strContains "Error processing file. Please check backend connection."
        "decode error" = false := by
  decide

/-- C6 as amended: on a non-2xx response the thrown error's message is
"Processing failed: " followed by the response body (so it contains the body
text), and that message is logged to the console, while the user-visible
alert is a fixed generic message independent of the body. -/
theorem conversion_failure_message (st : AppState) (f : AudioFile)
    (status t u : Nat) (body : String)
    (hf : st.selectedFile = some f) (hbad : responseOk status = false) :
    (handleStartProcess st (.response status body) t u).consoleError =
      some ("Processing failed: " ++ body) ∧
    strContains ("Processing failed: " ++ body) body = true ∧
    (handleStartProcess st (.response status body) t u).userAlert =
      some "Error processing file. Please check backend connection." := by
  refine ⟨?_, strContains_append "Processing failed: " body, ?_⟩
  · simp [handleStartProcess, hf, hbad]
  · simp [handleStartProcess, hf, hbad]

/-- Witness for C6 (amended): the HTTP 500 "decode error" failure logs
"Processing failed: decode error". -/
theorem conversion_failure_message_witness :
    StartResult.consoleError
        (handleStartProcess fileSelectedState (.response 500 "decode error") 2000 0) =
      some "Processing failed: decode error" :=
  (conversion_failure_message fileSelectedState songFile 500 2000 0 "decode error"
    rfl rfl).1

/-- C8: run on its own from 0, the simulator never reaches 100: with every
random draw in [0,1) the folded value stays strictly below 91.5 (each update
adds less than 1.5 and updates stop once the value reaches the soft ceiling
90), so it never equals 100; and any value at or past the ceiling is left
unchanged by further ticks. -/
theorem simulator_never_reaches_100 (xs : List ℚ)
    (h : ∀ x ∈ xs, 0 ≤ x ∧ x < 1) :
    runSim xs < 183 / 2 ∧ runSim xs ≠ 100 ∧
      ∀ p y : ℚ, 90 ≤ p → simTick p y = p := by
  have hb : runSim xs < 183 / 2 := foldl_simTick_bound xs 0 (by norm_num) h
  refine ⟨hb, ?_, ?_⟩
  · intro hc
    rw [hc] at hb
    norm_num at hb
  · intro p y hp
    simp [simTick, hp]

/-- Witness for C8: two draws of one half leave the simulator short of
100. -/
theorem simulator_never_reaches_100_witness :
    runSim [(1 : ℚ) / 2, 1 / 2] ≠ 100 :=
  (simulator_never_reaches_100 [(1 : ℚ) / 2, 1 / 2] (by norm_num)).2.1

/-- C9: in the success-path trace the interval is cleared strictly before the
final progress write (`successTail` lists `stopTimer` before
`setProgress 100`, in source order): however many simulator ticks were
delivered beforehand, the resulting state has progress exactly 100 with the
timer stopped, and a simulator tick arriving after the trace is a no-op, so
no stale simulated value can overwrite the final 100. -/
theorem stop_ordered_before_final_write (st : AppState) (xs : List ℚ)
    (u : Nat) (x : ℚ) :
    (runActions st (successActionTrace xs u)).processingProgress = 100 ∧
    (runActions st (successActionTrace xs u)).timerActive = false ∧
    applyAction (runActions st (successActionTrace xs u)) (.simTickAct x) =
      runActions st (successActionTrace xs u) := by
  have h : runActions st (successActionTrace xs u) =
      runActions (runActions st
        ([Action.setIsProcessing true, Action.setProgress 0, Action.startTimer]
          ++ xs.map Action.simTickAct)) (successTail u) := by
    simp [successActionTrace, runActions, List.foldl_append]
  rw [h, runActions_successTail]
  exact ⟨rfl, rfl, rfl⟩

end SoundTab
